import Mathlib

/-!
Shallow embedding of the strongswan provisioning service of this repository
(src/target/docker-startup/00-initial.startup/cc_startup/plugins/cc_service_strongswan.py).

The embedding covers the network-policy core: the subnet partitioning performed in
StrongSwan.configure (lines 186-198), the IPv6 classification performed in
StrongSwan.prepare (lines 112-121), the ordered firewall/NAT rule emission performed in
StrongSwan.configure (lines 302-529), and the external-PKI initialization
StrongSwan.init_pki_external (lines 570-574) together with the path constants
(lines 27-30).

Addresses are plain natural numbers (32-bit values for IPv4, 128-bit values for IPv6);
a CIDR network is the pair of its address value and its routing prefix length, exactly
the data netaddr.IPNetwork carries.  The netaddr library operations the source calls
are embedded as follows (netaddr 0.7.x, the release line contemporary with this code):
network[i] is first + i and raises IndexError unless i < size, network[-1] is the last
address, network.subnet(96) enumerates /96 blocks starting at the masked base address,
is_multicast is containment in ff00::/8, is_unicast is not is_multicast, and is_private
for IPv6 is containment in fc00::/7 or fec0::/10 or the link-local block fe80::/10.

Each call of the helpers iptables_add / ip6tables_add and each rule-installing call of
iptables_run / ip6tables_run appends one rule descriptor; the emitted order of the
descriptors is the order of the calls in the source.  Chain-creation calls ("-N") install
no rule and add no descriptor.  Packet evaluation of a chain uses standard first-match
packet-filter semantics (order-significant, first matching rule decides); in the nat
table an ACCEPT action means the packet is exempted from address translation.
-/

set_option maxRecDepth 10000

/-- A CIDR network as carried by netaddr.IPNetwork: the address value as written and the
routing prefix length.  The address family is tracked separately; the bit width is 32
for IPv4 and 128 for IPv6. -/
structure IpNet where
  addr : Nat
  prefixLen : Nat
  deriving DecidableEq

/-- First (masked base) address of a network of bit width w: the address with the host
bits cleared.  This is netaddr's network.first. -/
def netFirst (w : Nat) (n : IpNet) : Nat :=
  n.addr / 2 ^ (w - n.prefixLen) * 2 ^ (w - n.prefixLen)

/-- Number of addresses in a network of bit width w. -/
def netSize (w : Nat) (n : IpNet) : Nat :=
  2 ^ (w - n.prefixLen)

/-- Last address of a network of bit width w.  This is netaddr's network.last, the value
network[-1] returns. -/
def netLast (w : Nat) (n : IpNet) : Nat :=
  netFirst w n + netSize w n - 1

/-- The address at index i of a network: netaddr's network[i] for a non-negative index,
which is valid exactly when i < netSize. -/
def netIndex (w : Nat) (n : IpNet) (i : Nat) : Nat :=
  netFirst w n + i

/-- Address membership in a network (netaddr containment of an address). -/
def inNetwork (w : Nat) (n : IpNet) (a : Nat) : Bool :=
  decide (netFirst w n ≤ a) && decide (a ≤ netLast w n)

/-- Network containment (netaddr containment of a network in a network): the inner
range lies within the outer range. -/
def subnetOfNet (w : Nat) (inner outer : IpNet) : Bool :=
  decide (netFirst w outer ≤ netFirst w inner) && decide (netLast w inner ≤ netLast w outer)

/-- Source constant IPV6_NETWORK_GUA, 2000::/3 (line 46; the source uses it only in the
classification error message). -/
def IPV6_NETWORK_GUA : IpNet := ⟨0x2000 <<< 112, 3⟩

/-- Source constant IPV6_NETWORK_SITE_LOCAL, fc00::/7 (line 47). -/
def IPV6_NETWORK_SITE_LOCAL : IpNet := ⟨0xfc00 <<< 112, 7⟩

/-- netaddr IPV6_MULTICAST, ff00::/8. -/
def ipv6MulticastNet : IpNet := ⟨0xff00 <<< 112, 8⟩

/-- netaddr IPV6_PRIVATE second entry, fec0::/10 (deprecated site-local block). -/
def ipv6SiteLocalDeprecatedNet : IpNet := ⟨0xfec0 <<< 112, 10⟩

/-- netaddr IPV6_LINK_LOCAL, fe80::/10. -/
def ipv6LinkLocalNet : IpNet := ⟨0xfe80 <<< 112, 10⟩

/-- The IPv6 loopback host network ::1/128, used by the anti-spoofing rules. -/
def ipv6LoopbackNet : IpNet := ⟨1, 128⟩

/-- The IPv4 loopback network 127.0.0.0/8, used by the anti-spoofing rules. -/
def ipv4LoopbackNet : IpNet := ⟨0x7f000000, 8⟩

/-- netaddr is_multicast for an IPv6 network: containment in ff00::/8. -/
def isMulticast6 (n : IpNet) : Bool := subnetOfNet 128 n ipv6MulticastNet

/-- netaddr is_unicast: the negation of is_multicast. -/
def isUnicast6 (n : IpNet) : Bool := !isMulticast6 n

/-- netaddr is_link_local for an IPv6 network: containment in fe80::/10. -/
def isLinkLocal6 (n : IpNet) : Bool := subnetOfNet 128 n ipv6LinkLocalNet

/-- netaddr is_private for an IPv6 network: containment in fc00::/7 (unique local) or in
fec0::/10 (deprecated site local), or link local. -/
def isPrivate6 (n : IpNet) : Bool :=
  subnetOfNet 128 n IPV6_NETWORK_SITE_LOCAL || subnetOfNet 128 n ipv6SiteLocalDeprecatedNet
    || isLinkLocal6 n

/-- Result of the IPv6 client-subnet classification in StrongSwan.prepare. -/
inductive ClassifyV6
  | globalUnicast
  | siteLocal
  | unsupportedAddressRange
  deriving DecidableEq

/-- Embeds the classification branch of StrongSwan.prepare (lines 112-121): global
unicast when is_unicast() holds and is_private() does not, site local when is_private()
holds, and otherwise the run is aborted by an exception (error kind
UnsupportedAddressRange of the specification). -/
def classifySubnetV6 (n : IpNet) : ClassifyV6 :=
  if isUnicast6 n && !isPrivate6 n then .globalUnicast
  else if isPrivate6 n then .siteLocal
  else .unsupportedAddressRange

/-- Derived addressing facts of one address family: the gateway address, the client
address range, and the subnet the three were taken from. -/
structure ClientAddressing where
  serverAddress : Nat
  clientRangeStart : Nat
  clientRangeEnd : Nat
  effectiveSubnet : IpNet
  deriving DecidableEq

/-- Embeds the IPv4 partitioning of StrongSwan.configure (lines 186-188):
subnet[1], subnet[2] and subnet[-1].  netaddr indexing raises IndexError when the index
is out of range, so the computation succeeds exactly when the network holds at least
three addresses; the failure is the InvalidSubnet error kind of the specification. -/
def partitionV4 (n : IpNet) : Option ClientAddressing :=
  if 2 < netSize 32 n then
    some ⟨netIndex 32 n 1, netIndex 32 n 2, netLast 32 n, n⟩
  else none

/-- Embeds the IPv6 clamping of StrongSwan.configure (lines 191-194): when the prefix
length is below 96 the working subnet becomes the first /96 sub-block, the one
network.subnet(96) yields first, whose base is the masked base of the input. -/
def effectiveClientSubnetV6 (n : IpNet) : IpNet :=
  if n.prefixLen < 96 then ⟨netFirst 128 n, 96⟩ else n

/-- Embeds the IPv6 partitioning of StrongSwan.configure (lines 191-198): indices 1, 2
and -1 of the effective (possibly clamped) subnet. -/
def partitionV6 (n : IpNet) : Option ClientAddressing :=
  let e := effectiveClientSubnetV6 n
  if 2 < netSize 128 e then
    some ⟨netIndex 128 e 1, netIndex 128 e 2, netLast 128 e, e⟩
  else none

/-- Address family of a subnet, rule or packet. -/
inductive AddressFamily
  | v4
  | v6
  deriving DecidableEq

/-- Bit width of the address space of a family. -/
def familyWidth : AddressFamily → Nat
  | .v4 => 32
  | .v6 => 128

/-- Packet-filter table a rule is installed in ("-t", filter when absent). -/
inductive FwTable
  | filter
  | nat
  | mangle
  deriving DecidableEq

/-- Chain a rule is appended to, including the two custom ICMP chains the source
creates. -/
inductive Chain
  | INPUT
  | FORWARD
  | OUTPUT
  | POSTROUTING
  | AllowICMP_I
  | AllowICMP_F
  deriving DecidableEq

/-- Protocol selector ("-p"). -/
inductive Protocol
  | udp
  | tcp
  | esp
  | icmp
  | icmpv6
  deriving DecidableEq

/-- Argument of an xt_policy match ("--pol"): an IPSec policy is applied, or none is. -/
inductive PolMatch
  | ipsec
  | noPolicy
  deriving DecidableEq

/-- Connection-tracking state selector ("--ctstate"). -/
inductive CtMatch
  | ctNEW
  | ctINVALID
  | ctESTABLISHED_RELATED
  deriving DecidableEq

/-- Rule target ("-j"): a verdict, NAT masquerading, a jump into a custom chain, or the
TCPMSS set-mss action of the mangle table. -/
inductive RuleAction
  | ACCEPT
  | DROP
  | MASQUERADE
  | JUMP (target : Chain)
  | SETMSS (mss : Nat)
  deriving DecidableEq

/-- Structured match predicate of one rule.  Every field not set by a rule means the
rule does not constrain that aspect of the packet.  rateLimit carries the "-m limit"
rate and burst; it is stateful token-bucket state, so packet evaluation below treats a
rule with a rate limit as matching (its first packets always match). -/
structure RuleMatch where
  rtType0 : Bool := false
  notInterfaceLo : Bool := false
  inInterface : Option String := none
  srcNet : Option IpNet := none
  dstNet : Option IpNet := none
  proto : Option Protocol := none
  dport : Option Nat := none
  polDirIn : Option PolMatch := none
  polDirOut : Option PolMatch := none
  ctstate : Option CtMatch := none
  icmpType : Option Nat := none
  rateLimit : Option (Nat × Nat) := none
  tcpFlagsSynNotRst : Bool := false
  tcpMssRange : Option (Nat × Nat) := none
  deriving DecidableEq

/-- One emitted rule descriptor: one iptables_add / ip6tables_add call, or one
rule-installing iptables_run / ip6tables_run call. -/
structure Rule where
  family : AddressFamily
  table : FwTable
  chain : Chain
  action : RuleAction
  pred : RuleMatch
  comment : Option String := none
  deriving DecidableEq

/-- The configuration the policy core consumes, as read by StrongSwan.prepare:
the two client subnets and the two policy flags. -/
structure Config where
  clientSubnetV4 : IpNet
  clientSubnetV6 : IpNet
  allowInterclientCommunication : Bool
  protectClientsFromInternet : Bool
  deriving DecidableEq

/-- RH0 exploit-protection rules (lines 302-304): the first three emitted rules of
every run. -/
def rh0Rules : List Rule :=
  [ { family := .v6, table := .filter, chain := .INPUT, action := .DROP,
      pred := { rtType0 := true }, comment := some "RH0 Exploit Protection" },
    { family := .v6, table := .filter, chain := .FORWARD, action := .DROP,
      pred := { rtType0 := true }, comment := some "RH0 Exploit Protection" },
    { family := .v6, table := .filter, chain := .OUTPUT, action := .DROP,
      pred := { rtType0 := true }, comment := some "RH0 Exploit Protection" } ]

/-- Anti-spoofing rules (lines 310-319): loopback-source drops, then drops of
client-subnet sources that arrived outside any IPSec policy. -/
def antiSpoofingRules (cs4 cs6 : IpNet) : List Rule :=
  [ { family := .v4, table := .filter, chain := .INPUT, action := .DROP,
      pred := { notInterfaceLo := true, srcNet := some ipv4LoopbackNet },
      comment := some "Anti-Spoofing" },
    { family := .v4, table := .filter, chain := .FORWARD, action := .DROP,
      pred := { notInterfaceLo := true, srcNet := some ipv4LoopbackNet },
      comment := some "Anti-Spoofing" },
    { family := .v6, table := .filter, chain := .INPUT, action := .DROP,
      pred := { notInterfaceLo := true, srcNet := some ipv6LoopbackNet },
      comment := some "Anti-Spoofing" },
    { family := .v6, table := .filter, chain := .FORWARD, action := .DROP,
      pred := { notInterfaceLo := true, srcNet := some ipv6LoopbackNet },
      comment := some "Anti-Spoofing" },
    { family := .v4, table := .filter, chain := .INPUT, action := .DROP,
      pred := { srcNet := some cs4, polDirIn := some .noPolicy },
      comment := some "Anti-Spoofing" },
    { family := .v4, table := .filter, chain := .FORWARD, action := .DROP,
      pred := { srcNet := some cs4, polDirIn := some .noPolicy },
      comment := some "Anti-Spoofing" },
    { family := .v6, table := .filter, chain := .INPUT, action := .DROP,
      pred := { srcNet := some cs6, polDirIn := some .noPolicy },
      comment := some "Anti-Spoofing" },
    { family := .v6, table := .filter, chain := .FORWARD, action := .DROP,
      pred := { srcNet := some cs6, polDirIn := some .noPolicy },
      comment := some "Anti-Spoofing" } ]

/-- Loopback bypass, IPSec control-plane admission, stateful filtering, and DNS
admission (lines 323-351), in emission order. -/
def serviceInputRules (cs4 cs6 : IpNet) : List Rule :=
  [ { family := .v4, table := .filter, chain := .INPUT, action := .ACCEPT,
      pred := { inInterface := some "lo" } },
    { family := .v6, table := .filter, chain := .INPUT, action := .ACCEPT,
      pred := { inInterface := some "lo" } },
    { family := .v4, table := .filter, chain := .INPUT, action := .ACCEPT,
      pred := { proto := some .udp, dport := some 500 } },
    { family := .v4, table := .filter, chain := .INPUT, action := .ACCEPT,
      pred := { proto := some .udp, dport := some 4500 } },
    { family := .v4, table := .filter, chain := .INPUT, action := .ACCEPT,
      pred := { proto := some .esp } },
    { family := .v6, table := .filter, chain := .INPUT, action := .ACCEPT,
      pred := { proto := some .udp, dport := some 500 } },
    { family := .v6, table := .filter, chain := .INPUT, action := .ACCEPT,
      pred := { proto := some .udp, dport := some 4500 } },
    { family := .v6, table := .filter, chain := .INPUT, action := .ACCEPT,
      pred := { proto := some .esp } },
    { family := .v4, table := .filter, chain := .INPUT, action := .DROP,
      pred := { ctstate := some .ctINVALID } },
    { family := .v4, table := .filter, chain := .INPUT, action := .ACCEPT,
      pred := { ctstate := some .ctESTABLISHED_RELATED } },
    { family := .v4, table := .filter, chain := .FORWARD, action := .DROP,
      pred := { ctstate := some .ctINVALID } },
    { family := .v4, table := .filter, chain := .FORWARD, action := .ACCEPT,
      pred := { ctstate := some .ctESTABLISHED_RELATED } },
    { family := .v6, table := .filter, chain := .INPUT, action := .DROP,
      pred := { ctstate := some .ctINVALID } },
    { family := .v6, table := .filter, chain := .INPUT, action := .ACCEPT,
      pred := { ctstate := some .ctESTABLISHED_RELATED } },
    { family := .v6, table := .filter, chain := .FORWARD, action := .DROP,
      pred := { ctstate := some .ctINVALID } },
    { family := .v6, table := .filter, chain := .FORWARD, action := .ACCEPT,
      pred := { ctstate := some .ctESTABLISHED_RELATED } },
    { family := .v4, table := .filter, chain := .INPUT, action := .ACCEPT,
      pred := { proto := some .udp, srcNet := some cs4, dport := some 53,
                polDirIn := some .ipsec } },
    { family := .v4, table := .filter, chain := .INPUT, action := .ACCEPT,
      pred := { proto := some .tcp, srcNet := some cs4, dport := some 53,
                polDirIn := some .ipsec } },
    { family := .v6, table := .filter, chain := .INPUT, action := .ACCEPT,
      pred := { proto := some .udp, srcNet := some cs6, dport := some 53,
                polDirIn := some .ipsec } },
    { family := .v6, table := .filter, chain := .INPUT, action := .ACCEPT,
      pred := { proto := some .tcp, srcNet := some cs6, dport := some 53,
                polDirIn := some .ipsec } } ]

/-- The FORWARD drop isolating clients from each other (lines 356-357): source and
destination are both the client subnet of the family. -/
def interClientDropRule (f : AddressFamily) (cs : IpNet) : Rule :=
  { family := f, table := .filter, chain := .FORWARD, action := .DROP,
    pred := { srcNet := some cs, dstNet := some cs } }

/-- Inter-client isolation block (lines 355-357): emitted only when
ALLOW_INTERCLIENT_COMMUNICATION is false. -/
def interClientBlockRules (allow : Bool) (cs4 cs6 : IpNet) : List Rule :=
  if allow then [] else [interClientDropRule .v4 cs4, interClientDropRule .v6 cs6]

/-- One ICMPv4 accept inside a custom chain. -/
def icmp4Accept (c : Chain) (t : Nat) : Rule :=
  { family := .v4, table := .filter, chain := c, action := .ACCEPT,
    pred := { proto := some .icmp, icmpType := some t } }

/-- One rate-limited ICMPv4 accept inside a custom chain. -/
def icmp4AcceptLimited (c : Chain) (t rate burst : Nat) : Rule :=
  { family := .v4, table := .filter, chain := c, action := .ACCEPT,
    pred := { proto := some .icmp, icmpType := some t, rateLimit := some (rate, burst) } }

/-- One ICMPv6 accept inside a custom chain. -/
def icmp6Accept (c : Chain) (t : Nat) : Rule :=
  { family := .v6, table := .filter, chain := c, action := .ACCEPT,
    pred := { proto := some .icmpv6, icmpType := some t } }

/-- One rate-limited ICMPv6 accept inside a custom chain. -/
def icmp6AcceptLimited (c : Chain) (t rate burst : Nat) : Rule :=
  { family := .v6, table := .filter, chain := c, action := .ACCEPT,
    pred := { proto := some .icmpv6, icmpType := some t, rateLimit := some (rate, burst) } }

/-- ICMP admission (lines 372-442): the four custom allow-list chains with their
trailing in-chain drops, each followed by the dispatch rule of its top-level chain. -/
def icmpRules : List Rule :=
  [ icmp4Accept .AllowICMP_I 0, icmp4Accept .AllowICMP_I 3,
    icmp4AcceptLimited .AllowICMP_I 8 5 20,
    icmp4Accept .AllowICMP_I 11, icmp4Accept .AllowICMP_I 12, icmp4Accept .AllowICMP_I 30,
    { family := .v4, table := .filter, chain := .AllowICMP_I, action := .DROP, pred := {} },
    { family := .v4, table := .filter, chain := .INPUT, action := .JUMP .AllowICMP_I,
      pred := { proto := some .icmp } },
    icmp4Accept .AllowICMP_F 0, icmp4Accept .AllowICMP_F 3,
    icmp4AcceptLimited .AllowICMP_F 8 5 20,
    icmp4Accept .AllowICMP_F 11, icmp4Accept .AllowICMP_F 12, icmp4Accept .AllowICMP_F 30,
    { family := .v4, table := .filter, chain := .AllowICMP_F, action := .DROP, pred := {} },
    { family := .v4, table := .filter, chain := .FORWARD, action := .JUMP .AllowICMP_F,
      pred := { proto := some .icmp } },
    icmp6Accept .AllowICMP_I 1, icmp6Accept .AllowICMP_I 2, icmp6Accept .AllowICMP_I 3,
    icmp6Accept .AllowICMP_I 4,
    icmp6AcceptLimited .AllowICMP_I 128 5 10,
    icmp6Accept .AllowICMP_I 129, icmp6Accept .AllowICMP_I 130, icmp6Accept .AllowICMP_I 131,
    icmp6Accept .AllowICMP_I 132, icmp6Accept .AllowICMP_I 133, icmp6Accept .AllowICMP_I 134,
    icmp6Accept .AllowICMP_I 135, icmp6Accept .AllowICMP_I 136, icmp6Accept .AllowICMP_I 151,
    icmp6Accept .AllowICMP_I 152, icmp6Accept .AllowICMP_I 153,
    { family := .v6, table := .filter, chain := .AllowICMP_I, action := .DROP, pred := {} },
    { family := .v6, table := .filter, chain := .INPUT, action := .JUMP .AllowICMP_I,
      pred := { proto := some .icmpv6 } },
    icmp6Accept .AllowICMP_F 1, icmp6Accept .AllowICMP_F 2, icmp6Accept .AllowICMP_F 3,
    icmp6Accept .AllowICMP_F 4,
    icmp6AcceptLimited .AllowICMP_F 128 5 10,
    icmp6Accept .AllowICMP_F 129, icmp6Accept .AllowICMP_F 130, icmp6Accept .AllowICMP_F 131,
    icmp6Accept .AllowICMP_F 132,
    { family := .v6, table := .filter, chain := .AllowICMP_F, action := .DROP, pred := {} },
    { family := .v6, table := .filter, chain := .FORWARD, action := .JUMP .AllowICMP_F,
      pred := { proto := some .icmpv6 } } ]

/-- New-connection admission from clients (lines 446-454): FORWARD accepts for
client-subnet sources in NEW state that arrived under an IPSec policy. -/
def vpnForwardRules (cs4 cs6 : IpNet) : List Rule :=
  [ { family := .v4, table := .filter, chain := .FORWARD, action := .ACCEPT,
      pred := { srcNet := some cs4, ctstate := some .ctNEW, polDirIn := some .ipsec } },
    { family := .v6, table := .filter, chain := .FORWARD, action := .ACCEPT,
      pred := { srcNet := some cs6, ctstate := some .ctNEW, polDirIn := some .ipsec } } ]

/-- The FORWARD accept admitting internet-initiated NEW connections to a client
subnet, with no path restriction (lines 460-466). -/
def internetToClientRule (f : AddressFamily) (cs : IpNet) : Rule :=
  { family := f, table := .filter, chain := .FORWARD, action := .ACCEPT,
    pred := { dstNet := some cs, ctstate := some .ctNEW } }

/-- Internet-to-client admission block (lines 458-466): emitted only when
PROTECT_CLIENTS_FROM_INTERNET is false. -/
def internetToClientRules (protect : Bool) (cs4 cs6 : IpNet) : List Rule :=
  if protect then [] else [internetToClientRule .v4 cs4, internetToClientRule .v6 cs6]

/-- The unconditional default-deny rule of a chain (lines 470-473): an empty match. -/
def defaultDenyRule (f : AddressFamily) (c : Chain) : Rule :=
  { family := f, table := .filter, chain := c, action := .DROP, pred := {} }

/-- Default deny block (lines 470-473). -/
def defaultDenyRules : List Rule :=
  [ defaultDenyRule .v4 .INPUT, defaultDenyRule .v4 .FORWARD,
    defaultDenyRule .v6 .INPUT, defaultDenyRule .v6 .FORWARD ]

/-- MSS clamping in the mangle table (lines 485-499). -/
def mangleRules (cs4 cs6 : IpNet) : List Rule :=
  [ { family := .v4, table := .mangle, chain := .FORWARD, action := .SETMSS 1360,
      pred := { proto := some .tcp, tcpFlagsSynNotRst := true, srcNet := some cs4,
                polDirIn := some .ipsec, tcpMssRange := some (1361, 1500) } },
    { family := .v6, table := .mangle, chain := .FORWARD, action := .SETMSS 1340,
      pred := { proto := some .tcp, tcpFlagsSynNotRst := true, srcNet := some cs6,
                polDirIn := some .ipsec, tcpMssRange := some (1341, 1500) } } ]

/-- The nat-table POSTROUTING ACCEPT that exempts client-subnet traffic leaving under
an outbound IPSec policy from address translation (lines 506-509 and 522-525). -/
def natExemptRule (f : AddressFamily) (cs : IpNet) : Rule :=
  { family := f, table := .nat, chain := .POSTROUTING, action := .ACCEPT,
    pred := { srcNet := some cs, polDirOut := some .ipsec } }

/-- The nat-table POSTROUTING MASQUERADE for client-subnet sources (lines 511-513 and
527-529). -/
def natMasqueradeRule (f : AddressFamily) (cs : IpNet) : Rule :=
  { family := f, table := .nat, chain := .POSTROUTING, action := .MASQUERADE,
    pred := { srcNet := some cs } }

/-- NAT block (lines 506-529): the IPv4 exempt/masquerade pair is always emitted; the
IPv6 pair only when the IPv6 client subnet was classified site local. -/
def natPostroutingRules (siteLocal : Bool) (cs4 cs6 : IpNet) : List Rule :=
  [natExemptRule .v4 cs4, natMasqueradeRule .v4 cs4]
    ++ (if siteLocal then [natExemptRule .v6 cs6, natMasqueradeRule .v6 cs6] else [])

/-- The full ordered rule sequence one run of StrongSwan.configure emits
(lines 302-529), in emission order. -/
def compileRules (cfg : Config) (siteLocal : Bool) : List Rule :=
  rh0Rules
    ++ antiSpoofingRules cfg.clientSubnetV4 cfg.clientSubnetV6
    ++ serviceInputRules cfg.clientSubnetV4 cfg.clientSubnetV6
    ++ interClientBlockRules cfg.allowInterclientCommunication
        cfg.clientSubnetV4 cfg.clientSubnetV6
    ++ icmpRules
    ++ vpnForwardRules cfg.clientSubnetV4 cfg.clientSubnetV6
    ++ internetToClientRules cfg.protectClientsFromInternet
        cfg.clientSubnetV4 cfg.clientSubnetV6
    ++ defaultDenyRules
    ++ mangleRules cfg.clientSubnetV4 cfg.clientSubnetV6
    ++ natPostroutingRules siteLocal cfg.clientSubnetV4 cfg.clientSubnetV6

/-- The error kinds the provisioning core can abort with. -/
inductive ProvisionError
  | invalidSubnet
  | unsupportedAddressRange
  deriving DecidableEq

/-- Embeds StrongSwan.configure: the IPv4 partitioning (lines 186-188) runs first, then
the IPv6 partitioning (lines 191-198), and only afterwards are firewall rules emitted
(lines 302-529); an IndexError of either partitioning therefore aborts the run before
any rule is emitted. -/
def configureFirewall (cfg : Config) (siteLocal : Bool) : Except ProvisionError (List Rule) :=
  match partitionV4 cfg.clientSubnetV4 with
  | none => .error .invalidSubnet
  | some _ =>
    match partitionV6 cfg.clientSubnetV6 with
    | none => .error .invalidSubnet
    | some _ => .ok (compileRules cfg siteLocal)

/-- The provisioning pipeline: StrongSwan.prepare classifies the IPv6 client subnet
(lines 112-121) and aborts on an unsupported range before StrongSwan.configure runs;
otherwise configure partitions the subnets and emits the rule sequence. -/
def provision (cfg : Config) : Except ProvisionError (List Rule) :=
  match classifySubnetV6 cfg.clientSubnetV6 with
  | .unsupportedAddressRange => .error .unsupportedAddressRange
  | .globalUnicast => configureFirewall cfg false
  | .siteLocal => configureFirewall cfg true

/-- The rules of one table, chain and family, in emission order: the chain a packet of
that family traverses in that table. -/
def tableChainRules (tb : FwTable) (c : Chain) (f : AddressFamily) (rs : List Rule) :
    List Rule :=
  rs.filter fun r => r.table == tb && r.chain == c && r.family == f

/-- The aspects of a packet the emitted matches can constrain. -/
structure Packet where
  family : AddressFamily
  src : Nat
  dst : Nat
  inputInterface : String
  proto : Option Protocol
  dport : Option Nat
  ipsecPolicyIn : Bool
  ipsecPolicyOut : Bool
  ctstate : Option CtMatch
  icmpType : Option Nat
  hasRtType0 : Bool
  tcpSynNotRst : Bool
  tcpMss : Option Nat
  deriving DecidableEq

/-- Evaluation of an xt_policy match against the packet's policy state in the matched
direction. -/
def polMatches : PolMatch → Bool → Bool
  | .ipsec, b => b
  | .noPolicy, b => !b

/-- Evaluation of a structured match against a packet; w is the bit width of the
address family.  An unset aspect constrains nothing; a rate limit is treated as
matching (see RuleMatch). -/
def matchesOn (w : Nat) (m : RuleMatch) (p : Packet) : Bool :=
  (!m.rtType0 || p.hasRtType0)
    && (!m.notInterfaceLo || p.inputInterface != "lo")
    && (match m.inInterface with | none => true | some s => p.inputInterface == s)
    && (match m.srcNet with | none => true | some n => inNetwork w n p.src)
    && (match m.dstNet with | none => true | some n => inNetwork w n p.dst)
    && (match m.proto with | none => true | some pr => p.proto == some pr)
    && (match m.dport with | none => true | some d => p.dport == some d)
    && (match m.polDirIn with | none => true | some pm => polMatches pm p.ipsecPolicyIn)
    && (match m.polDirOut with | none => true | some pm => polMatches pm p.ipsecPolicyOut)
    && (match m.ctstate with | none => true | some c => p.ctstate == some c)
    && (match m.icmpType with | none => true | some t => p.icmpType == some t)
    && (!m.tcpFlagsSynNotRst || p.tcpSynNotRst)
    && (match m.tcpMssRange with
        | none => true
        | some (lo, hi) =>
          match p.tcpMss with
          | some v => decide (lo ≤ v) && decide (v ≤ hi)
          | none => false)

/-- First-match semantics of one chain of one table: the action of the first rule of
that table, chain and family whose match accepts the packet.  In the nat table an
ACCEPT verdict exempts the packet from address translation. -/
def chainVerdict (rs : List Rule) (tb : FwTable) (c : Chain) (p : Packet) :
    Option RuleAction :=
  ((tableChainRules tb c p.family rs).find? fun r =>
      matchesOn (familyWidth r.family) r.pred p).map Rule.action

/-- Error kind of the external-PKI mode of the specification. -/
inductive PkiError
  | missingExternalPki
  deriving DecidableEq

/-- Observable outcome of a PKI initialization: which files were read, and whether it
failed. -/
structure PkiOutcome where
  filesRead : List String
  pkiError : Option PkiError
  deriving DecidableEq

/-- Source constant EXTERNAL_PKI_BASE_DIR (line 27). -/
def EXTERNAL_PKI_BASE_DIR : String := "/data/external_ca"

/-- Source constant EXTERNAL_PKI_CA_CERT_FILE (line 28). -/
def EXTERNAL_PKI_CA_CERT_FILE : String := EXTERNAL_PKI_BASE_DIR ++ "/ca-cert.pem"

/-- Source constant EXTERNAL_PKI_SERVER_CERT_FILE (line 29). -/
def EXTERNAL_PKI_SERVER_CERT_FILE : String := EXTERNAL_PKI_BASE_DIR ++ "/server/cert.pem"

/-- Source constant EXTERNAL_PKI_SERVER_KEY_FILE (line 30). -/
def EXTERNAL_PKI_SERVER_KEY_FILE : String := EXTERNAL_PKI_BASE_DIR ++ "/server/key.pem"

/-- Embeds StrongSwan.init_pki_external (lines 570-574).  The body of the source
function is a single pass statement: whatever files exist and are readable (the
readable argument), nothing is read and no error is raised. -/
def init_pki_external (readable : String → Bool) : PkiOutcome :=
  { filesRead := [], pkiError := none }

/-- The default IPv4 client subnet of the source, 10.0.0.0/24 (line 92). -/
def defaultClientSubnetV4 : IpNet := ⟨0x0A000000, 24⟩

/-- The default IPv6 client subnet of the source, fd00:dead:beef:affe::/64
(line 104). -/
def defaultClientSubnetV6 : IpNet := ⟨0xfd00deadbeefaffe <<< 64, 64⟩

/-- The default configuration of the source: default subnets, inter-client
communication disallowed, clients protected from the internet (lines 88-148). -/
def defaultCfg : Config :=
  ⟨defaultClientSubnetV4, defaultClientSubnetV6, false, true⟩

/-- The default IPv6 client subnet narrowed to prefix length 96, an already-narrow
input for the clamping theorem. -/
def fdNet96 : IpNet := ⟨0xfd00deadbeefaffe <<< 64, 96⟩

/-- The addressing facts the IPv6 partitioning derives for the default IPv6 client
subnet: indices 1, 2 and last of the clamped /96 block. -/
def fdPartition : ClientAddressing :=
  ⟨0xfd00deadbeefaffe0000000000000001, 0xfd00deadbeefaffe0000000000000002,
   0xfd00deadbeefaffe00000000ffffffff, ⟨0xfd00deadbeefaffe <<< 64, 96⟩⟩

/-- A multicast IPv6 subnet, ff05::/64: neither global unicast nor private. -/
def multicastClientSubnetV6 : IpNet := ⟨0xff05 <<< 112, 64⟩

/-- A configuration whose IPv6 client subnet is multicast. -/
def multicastCfg : Config :=
  ⟨defaultClientSubnetV4, multicastClientSubnetV6, false, true⟩

/-- A configuration whose IPv4 client subnet is a /32, a single address. -/
def smallV4Cfg : Config := ⟨⟨0x0A000000, 32⟩, defaultClientSubnetV6, false, true⟩

/-- The default configuration with inter-client communication allowed. -/
def allowCfg : Config := ⟨defaultClientSubnetV4, defaultClientSubnetV6, true, true⟩

/-- The default configuration with internet protection of the clients disabled. -/
def openCfg : Config := ⟨defaultClientSubnetV4, defaultClientSubnetV6, false, false⟩

/-- An IPv4 packet from client address 10.0.0.5 leaving under an outbound IPSec
policy. -/
def pktIpsecOut : Packet :=
  ⟨.v4, 0x0A000005, 0x08080808, "eth0", none, none, false, true, none, none,
   false, false, none⟩

/-- An IPv4 packet from client address 10.0.0.5 leaving with no outbound IPSec
policy. -/
def pktPlain : Packet :=
  ⟨.v4, 0x0A000005, 0x08080808, "eth0", none, none, false, false, none, none,
   false, false, none⟩

/-- C2: For every valid IPv4 client subnet (one holding at least three addresses, so
that netaddr indices 1 and 2 exist), the partitioning sets the server address to the
address at network index 1, the client range start to index 2 and the client range end
to the last address of the network; in particular 10.0.0.0/24 yields server address
10.0.0.1, client range start 10.0.0.2 and client range end 10.0.0.255. -/
theorem partition_v4_indices (n : IpNet) (h : 2 < netSize 32 n) :
    partitionV4 n = some ⟨netIndex 32 n 1, netIndex 32 n 2, netLast 32 n, n⟩
      ∧ partitionV4 defaultClientSubnetV4 =
          some ⟨0x0A000001, 0x0A000002, 0x0A0000FF, defaultClientSubnetV4⟩ := by
  refine ⟨?_, by decide⟩
  unfold partitionV4
  rw [if_pos h]

/-- Witness for C2: the hypothesis holds at the source default subnet 10.0.0.0/24 and
the conclusion evaluates there. -/
theorem partition_v4_indices_witness :
    partitionV4 defaultClientSubnetV4 =
      some ⟨0x0A000001, 0x0A000002, 0x0A0000FF, defaultClientSubnetV4⟩ :=
  (partition_v4_indices defaultClientSubnetV4 (by decide)).2

/-- C3: For every IPv6 client subnet with prefix length at least 96 the effective
subnet used for address derivation equals the input; for prefix length below 96 the
effective subnet is the first /96 sub-block of the input (a /96 whose base address is
the base address of the input); and the partitioning takes server address, client range
start and client range end at indices 1, 2 and last of that effective subnet. -/
theorem effective_subnet_v6_clamp (n : IpNet) :
    (96 ≤ n.prefixLen → effectiveClientSubnetV6 n = n)
      ∧ (n.prefixLen < 96 →
          (effectiveClientSubnetV6 n).prefixLen = 96
            ∧ (effectiveClientSubnetV6 n).addr = netFirst 128 n
            ∧ netFirst 128 (effectiveClientSubnetV6 n) = netFirst 128 n)
      ∧ ∀ ca, partitionV6 n = some ca →
          ca.serverAddress = netIndex 128 (effectiveClientSubnetV6 n) 1
            ∧ ca.clientRangeStart = netIndex 128 (effectiveClientSubnetV6 n) 2
            ∧ ca.clientRangeEnd = netLast 128 (effectiveClientSubnetV6 n)
            ∧ ca.effectiveSubnet = effectiveClientSubnetV6 n := by
  refine ⟨fun h => ?_, fun h => ?_, fun ca hca => ?_⟩
  · simp [effectiveClientSubnetV6, Nat.not_lt.mpr h]
  · refine ⟨by simp [effectiveClientSubnetV6, h], by simp [effectiveClientSubnetV6, h], ?_⟩
    have hdvd : (2 : Nat) ^ 32 ∣ 2 ^ (128 - n.prefixLen) := pow_dvd_pow 2 (by omega)
    have hx : (2 : Nat) ^ 32 ∣ netFirst 128 n := dvd_trans hdvd (dvd_mul_left _ _)
    have heff : effectiveClientSubnetV6 n = ⟨netFirst 128 n, 96⟩ := by
      simp [effectiveClientSubnetV6, h]
    rw [heff]
    show netFirst 128 n / 2 ^ (128 - 96) * 2 ^ (128 - 96) = netFirst 128 n
    norm_num
    exact Nat.div_mul_cancel hx
  · unfold partitionV6 at hca
    by_cases he : 2 < netSize 128 (effectiveClientSubnetV6 n)
    · rw [if_pos he] at hca
      cases hca
      exact ⟨rfl, rfl, rfl, rfl⟩
    · rw [if_neg he] at hca
      cases hca

/-- Witness for C3: the first conjunct discharged at an already-narrow /96 subnet, the
clamping conjuncts and the index conjuncts discharged at the source default /64
subnet. -/
theorem effective_subnet_v6_clamp_witness :
    effectiveClientSubnetV6 fdNet96 = fdNet96
      ∧ (effectiveClientSubnetV6 defaultClientSubnetV6).prefixLen = 96
      ∧ (effectiveClientSubnetV6 defaultClientSubnetV6).addr =
          netFirst 128 defaultClientSubnetV6
      ∧ netFirst 128 (effectiveClientSubnetV6 defaultClientSubnetV6) =
          netFirst 128 defaultClientSubnetV6
      ∧ fdPartition.serverAddress =
          netIndex 128 (effectiveClientSubnetV6 defaultClientSubnetV6) 1
      ∧ fdPartition.clientRangeStart =
          netIndex 128 (effectiveClientSubnetV6 defaultClientSubnetV6) 2
      ∧ fdPartition.clientRangeEnd =
          netLast 128 (effectiveClientSubnetV6 defaultClientSubnetV6) := by
  obtain ⟨h1, h2, h3⟩ := effective_subnet_v6_clamp defaultClientSubnetV6
  obtain ⟨a, b, c⟩ := h2 (by decide)
  obtain ⟨d, e, f, -⟩ := h3 fdPartition (by decide)
  exact ⟨(effective_subnet_v6_clamp fdNet96).1 (by decide), a, b, c, d, e, f⟩

/-- C4: the IPv6 classification is total and mutually exclusive over global unicast and
site local: a subnet is classified global unicast iff it is a unicast range not within
the private/unique-local range, site local iff it is within the private range, never
both, a subnet satisfying neither is classified as the UnsupportedAddressRange error
kind, and that classification aborts provisioning with an error, so no rule is
compiled. -/
theorem classify_v6_total_exclusive (n : IpNet) :
    (classifySubnetV6 n = .globalUnicast ↔ (isUnicast6 n = true ∧ isPrivate6 n = false))
      ∧ (classifySubnetV6 n = .siteLocal ↔ isPrivate6 n = true)
      ∧ ¬(classifySubnetV6 n = .globalUnicast ∧ classifySubnetV6 n = .siteLocal)
      ∧ (classifySubnetV6 n = .unsupportedAddressRange ↔
          ¬(isUnicast6 n = true ∧ isPrivate6 n = false) ∧ isPrivate6 n = false)
      ∧ ∀ cfg : Config, cfg.clientSubnetV6 = n →
          classifySubnetV6 n = .unsupportedAddressRange →
            provision cfg = .error .unsupportedAddressRange := by
  have hlast : ∀ cfg : Config, cfg.clientSubnetV6 = n →
      classifySubnetV6 n = .unsupportedAddressRange →
        provision cfg = .error .unsupportedAddressRange := by
    intro cfg hcfg hcl
    simp [provision, hcfg, hcl]
  refine ⟨?_, ?_, ?_, ?_, hlast⟩ <;>
    cases hu : isUnicast6 n <;> cases hp : isPrivate6 n <;>
      simp [classifySubnetV6, hu, hp]

/-- Witness for C4 at a concrete multicast /64: the classification yields the error
kind and provisioning aborts with it. -/
theorem classify_v6_total_exclusive_witness :
    classifySubnetV6 multicastClientSubnetV6 = ClassifyV6.unsupportedAddressRange
      ∧ provision multicastCfg = Except.error ProvisionError.unsupportedAddressRange :=
  ⟨by decide,
   (classify_v6_total_exclusive multicastClientSubnetV6).2.2.2.2 multicastCfg rfl
     (by decide)⟩

/-- C8: an IPv4 client subnet that cannot yield at least two address slots beyond the
network address (fewer than three addresses, e.g. a /31 or a /32) makes provisioning
fail with the InvalidSubnet error kind, and the failure precedes rule compilation: the
run returns an error and never a rule list, so no rule is partially applied (the
partitioning of source lines 186-188 runs before every rule emission of lines 302-529).
The first hypothesis states that the IPv6 classification of prepare succeeded, which in
the source is a precondition for configure to run at all. -/
theorem small_v4_subnet_invalid (cfg : Config)
    (hcl : classifySubnetV6 cfg.clientSubnetV6 ≠ ClassifyV6.unsupportedAddressRange)
    (hsz : netSize 32 cfg.clientSubnetV4 ≤ 2) :
    partitionV4 cfg.clientSubnetV4 = none
      ∧ provision cfg = .error .invalidSubnet
      ∧ ∀ rs, provision cfg ≠ .ok rs := by
  have hp : partitionV4 cfg.clientSubnetV4 = none := by
    unfold partitionV4
    rw [if_neg (by omega)]
  have hprov : provision cfg = .error .invalidSubnet := by
    rcases hc : classifySubnetV6 cfg.clientSubnetV6 with _ | _ | _
    · simp [provision, hc, configureFirewall, hp]
    · simp [provision, hc, configureFirewall, hp]
    · exact absurd hc hcl
  exact ⟨hp, hprov, by simp [hprov]⟩

/-- Witness for C8 at a /32 IPv4 client subnet with the default IPv6 subnet. -/
theorem small_v4_subnet_invalid_witness :
    partitionV4 smallV4Cfg.clientSubnetV4 = none
      ∧ provision smallV4Cfg = Except.error ProvisionError.invalidSubnet := by
  have h := small_v4_subnet_invalid smallV4Cfg (by decide) (by decide)
  exact ⟨h.1, h.2.1⟩

/-- C9 counterexample: with every file absent or unreadable (the file-system
environment returns false for every path, in particular for the three EXTERNAL_PKI
paths), the external-PKI initialization of the source raises no MissingExternalPki
error and reads no file.  This refutes the claim that external-mode provisioning reads
the pre-provisioned material and fails whenever a required file is absent or
unreadable: the source body is a single pass statement. -/
theorem external_pki_noop_counterexample :
    (init_pki_external fun _ => false).pkiError ≠ some PkiError.missingExternalPki
      ∧ (init_pki_external fun _ => false).pkiError = none
      ∧ (init_pki_external fun _ => false).filesRead = [] := by
  refine ⟨by decide, rfl, rfl⟩

/-- C9 amended: in External PKI mode the source's initialization is an unimplemented
no-op: whatever files exist and are readable, it reads nothing and raises no error; the
fixed external location exists only as unused path constants under /data/external_ca. -/
theorem external_pki_noop (readable : String → Bool) :
    init_pki_external readable = ⟨[], none⟩
      ∧ EXTERNAL_PKI_CA_CERT_FILE = "/data/external_ca/ca-cert.pem"
      ∧ EXTERNAL_PKI_SERVER_CERT_FILE = "/data/external_ca/server/cert.pem"
      ∧ EXTERNAL_PKI_SERVER_KEY_FILE = "/data/external_ca/server/key.pem" :=
  ⟨rfl, by decide, by decide, by decide⟩

/-- Witness for C9 amended, instantiated at the environment in which every file is
readable: the outcome is still empty. -/
theorem external_pki_noop_witness :
    init_pki_external (fun _ => true) = ⟨[], none⟩
      ∧ EXTERNAL_PKI_CA_CERT_FILE = "/data/external_ca/ca-cert.pem"
      ∧ EXTERNAL_PKI_SERVER_CERT_FILE = "/data/external_ca/server/cert.pem"
      ∧ EXTERNAL_PKI_SERVER_KEY_FILE = "/data/external_ca/server/key.pem" :=
  external_pki_noop fun _ => true

set_option maxHeartbeats 2000000 in
/-- C1: in the compiled rule sequence of every run, the three IPv6 routing-type-0
drop rules on INPUT, FORWARD and OUTPUT are the first rules emitted, before any other
rule of the run; and, for both address families, the unconditional DROP rules of the
INPUT and FORWARD chains (an empty match) are the last filter-table rules emitted for
their chains, hence after every conditional accept/drop group. -/
theorem rh0_first_default_deny_last (cfg : Config) (sl : Bool) :
    (compileRules cfg sl).take 3 = rh0Rules
      ∧ (tableChainRules .filter .INPUT .v4 (compileRules cfg sl)).getLast? =
          some (defaultDenyRule .v4 .INPUT)
      ∧ (tableChainRules .filter .FORWARD .v4 (compileRules cfg sl)).getLast? =
          some (defaultDenyRule .v4 .FORWARD)
      ∧ (tableChainRules .filter .INPUT .v6 (compileRules cfg sl)).getLast? =
          some (defaultDenyRule .v6 .INPUT)
      ∧ (tableChainRules .filter .FORWARD .v6 (compileRules cfg sl)).getLast? =
          some (defaultDenyRule .v6 .FORWARD) := by
  obtain ⟨cs4, cs6, aic, pci⟩ := cfg
  cases aic <;> cases pci <;> cases sl <;> exact ⟨rfl, rfl, rfl, rfl, rfl⟩

/-- Helper: prepending a block to a list preserves sublists of the list. -/
theorem sublist_extend_left {α : Type _} (l₁ : List α) {l₂ l₃ : List α}
    (h : List.Sublist l₃ l₂) : List.Sublist l₃ (l₁ ++ l₂) := by
  have h2 : List.Sublist ([] ++ l₃) (l₁ ++ l₂) := (List.nil_sublist l₁).append h
  simpa using h2

/-- Helper: a two-element list is a sublist of an append when its first element occurs
in the left part and its second in the right part. -/
theorem pair_sublist_append {α : Type _} {x y : α} {B C : List α}
    (hx : x ∈ B) (hy : y ∈ C) : List.Sublist [x, y] (B ++ C) := by
  have h := (List.singleton_sublist.mpr hx).append (List.singleton_sublist.mpr hy)
  simpa using h

set_option maxHeartbeats 2000000 in
/-- C5: when inter-client communication is not allowed, the compiled output contains,
for each address family, a FORWARD-chain DROP rule whose source and destination are
both the configured client subnet, emitted before the default-deny rule of the FORWARD
chain (a sublist in that order); when it is allowed, no rule of the output is a FORWARD
DROP whose source and destination are both a client subnet. -/
theorem inter_client_isolation (cfg : Config) (sl : Bool) :
    (cfg.allowInterclientCommunication = false →
        List.Sublist
            [interClientDropRule .v4 cfg.clientSubnetV4, defaultDenyRule .v4 .FORWARD]
            (compileRules cfg sl)
          ∧ List.Sublist
              [interClientDropRule .v6 cfg.clientSubnetV6, defaultDenyRule .v6 .FORWARD]
              (compileRules cfg sl))
      ∧ (cfg.allowInterclientCommunication = true →
          ∀ r ∈ compileRules cfg sl,
            ¬(r.chain = Chain.FORWARD ∧ r.action = RuleAction.DROP
              ∧ ((r.pred.srcNet = some cfg.clientSubnetV4
                    ∧ r.pred.dstNet = some cfg.clientSubnetV4)
                 ∨ (r.pred.srcNet = some cfg.clientSubnetV6
                    ∧ r.pred.dstNet = some cfg.clientSubnetV6)))) := by
  obtain ⟨cs4, cs6, aic, pci⟩ := cfg
  constructor
  · intro ha
    have ha' : aic = false := ha
    subst ha'
    have hrw : compileRules ⟨cs4, cs6, false, pci⟩ sl =
        rh0Rules ++ (antiSpoofingRules cs4 cs6 ++ (serviceInputRules cs4 cs6 ++
          ([interClientDropRule .v4 cs4, interClientDropRule .v6 cs6] ++
            (icmpRules ++ (vpnForwardRules cs4 cs6 ++
              (internetToClientRules pci cs4 cs6 ++ (defaultDenyRules ++
                (mangleRules cs4 cs6 ++ natPostroutingRules sl cs4 cs6)))))))) := by
      simp [compileRules, interClientBlockRules, List.append_assoc]
    constructor
    · rw [hrw]
      have h0 : List.Sublist
          [interClientDropRule AddressFamily.v4 cs4, defaultDenyRule .v4 .FORWARD]
          ([interClientDropRule AddressFamily.v4 cs4,
              interClientDropRule AddressFamily.v6 cs6] ++
            (icmpRules ++ (vpnForwardRules cs4 cs6 ++ (internetToClientRules pci cs4 cs6 ++
              (defaultDenyRules ++ (mangleRules cs4 cs6 ++
                natPostroutingRules sl cs4 cs6)))))) :=
        pair_sublist_append (by simp) (by simp [defaultDenyRules])
      exact sublist_extend_left rh0Rules (sublist_extend_left _ (sublist_extend_left _ h0))
    · rw [hrw]
      have h0 : List.Sublist
          [interClientDropRule AddressFamily.v6 cs6, defaultDenyRule .v6 .FORWARD]
          ([interClientDropRule AddressFamily.v4 cs4,
              interClientDropRule AddressFamily.v6 cs6] ++
            (icmpRules ++ (vpnForwardRules cs4 cs6 ++ (internetToClientRules pci cs4 cs6 ++
              (defaultDenyRules ++ (mangleRules cs4 cs6 ++
                natPostroutingRules sl cs4 cs6)))))) :=
        pair_sublist_append (by simp) (by simp [defaultDenyRules])
      exact sublist_extend_left rh0Rules (sublist_extend_left _ (sublist_extend_left _ h0))
  · intro ha
    have ha' : aic = true := ha
    subst ha'
    cases pci <;> cases sl <;>
      simp [compileRules, rh0Rules, antiSpoofingRules, serviceInputRules,
        interClientBlockRules, icmpRules, vpnForwardRules, internetToClientRules,
        defaultDenyRules, mangleRules, natPostroutingRules, interClientDropRule,
        internetToClientRule, defaultDenyRule, natExemptRule, natMasqueradeRule,
        icmp4Accept, icmp4AcceptLimited, icmp6Accept, icmp6AcceptLimited,
        List.forall_mem_append, List.forall_mem_cons]

/-- Witness for C5: the isolation drop precedes the default deny at the source default
configuration, and with inter-client communication allowed the predicate is refuted at
a concrete member rule. -/
theorem inter_client_isolation_witness :
    List.Sublist
        [interClientDropRule .v4 defaultCfg.clientSubnetV4, defaultDenyRule .v4 .FORWARD]
        (compileRules defaultCfg true)
      ∧ ¬((defaultDenyRule .v4 .INPUT).chain = Chain.FORWARD
          ∧ (defaultDenyRule .v4 .INPUT).action = RuleAction.DROP
          ∧ (((defaultDenyRule .v4 .INPUT).pred.srcNet = some allowCfg.clientSubnetV4
                ∧ (defaultDenyRule .v4 .INPUT).pred.dstNet = some allowCfg.clientSubnetV4)
             ∨ ((defaultDenyRule .v4 .INPUT).pred.srcNet = some allowCfg.clientSubnetV6
                ∧ (defaultDenyRule .v4 .INPUT).pred.dstNet =
                    some allowCfg.clientSubnetV6))) :=
  ⟨((inter_client_isolation defaultCfg true).1 rfl).1,
   (inter_client_isolation allowCfg true).2 rfl (defaultDenyRule .v4 .INPUT) (by decide)⟩

set_option maxHeartbeats 2000000 in
/-- C6: when the clients are protected from the internet, no rule of the compiled
output is a FORWARD-chain ACCEPT destined for a client subnet without an inbound
IPSec-policy match, in either address family; when protection is disabled, the FORWARD
accept destined for the client subnet in NEW connection-tracking state and with no
path restriction is emitted for each family. -/
theorem internet_protection (cfg : Config) (sl : Bool) :
    (cfg.protectClientsFromInternet = true →
        ∀ r ∈ compileRules cfg sl,
          ¬(r.chain = Chain.FORWARD ∧ r.action = RuleAction.ACCEPT
            ∧ (r.pred.dstNet = some cfg.clientSubnetV4
               ∨ r.pred.dstNet = some cfg.clientSubnetV6)
            ∧ r.pred.polDirIn ≠ some PolMatch.ipsec))
      ∧ (cfg.protectClientsFromInternet = false →
          internetToClientRule .v4 cfg.clientSubnetV4 ∈ compileRules cfg sl
            ∧ internetToClientRule .v6 cfg.clientSubnetV6 ∈ compileRules cfg sl
            ∧ (internetToClientRule .v4 cfg.clientSubnetV4).pred.ctstate =
                some CtMatch.ctNEW
            ∧ (internetToClientRule .v4 cfg.clientSubnetV4).pred.polDirIn = none
            ∧ (internetToClientRule .v4 cfg.clientSubnetV4).pred.polDirOut = none
            ∧ (internetToClientRule .v6 cfg.clientSubnetV6).pred.ctstate =
                some CtMatch.ctNEW
            ∧ (internetToClientRule .v6 cfg.clientSubnetV6).pred.polDirIn = none
            ∧ (internetToClientRule .v6 cfg.clientSubnetV6).pred.polDirOut = none) := by
  obtain ⟨cs4, cs6, aic, pci⟩ := cfg
  constructor
  · intro hp
    have hp' : pci = true := hp
    subst hp'
    cases aic <;> cases sl <;>
      simp [compileRules, rh0Rules, antiSpoofingRules, serviceInputRules,
        interClientBlockRules, icmpRules, vpnForwardRules, internetToClientRules,
        defaultDenyRules, mangleRules, natPostroutingRules, interClientDropRule,
        internetToClientRule, defaultDenyRule, natExemptRule, natMasqueradeRule,
        icmp4Accept, icmp4AcceptLimited, icmp6Accept, icmp6AcceptLimited,
        List.forall_mem_append, List.forall_mem_cons]
  · intro hp
    have hp' : pci = false := hp
    subst hp'
    refine ⟨?_, ?_, rfl, rfl, rfl, rfl, rfl, rfl⟩ <;>
      simp [compileRules, internetToClientRules, List.mem_append]

/-- Witness for C6: with protection disabled the admission rule is present at the
concrete open configuration, and with protection enabled the predicate is refuted at a
concrete member rule. -/
theorem internet_protection_witness :
    internetToClientRule .v4 openCfg.clientSubnetV4 ∈ compileRules openCfg true
      ∧ ¬((defaultDenyRule .v4 .INPUT).chain = Chain.FORWARD
          ∧ (defaultDenyRule .v4 .INPUT).action = RuleAction.ACCEPT
          ∧ ((defaultDenyRule .v4 .INPUT).pred.dstNet = some defaultCfg.clientSubnetV4
             ∨ (defaultDenyRule .v4 .INPUT).pred.dstNet = some defaultCfg.clientSubnetV6)
          ∧ (defaultDenyRule .v4 .INPUT).pred.polDirIn ≠ some PolMatch.ipsec) :=
  ⟨((internet_protection openCfg true).2 rfl).1,
   (internet_protection defaultCfg true).1 rfl (defaultDenyRule .v4 .INPUT) (by decide)⟩

set_option maxHeartbeats 2000000 in
/-- C10: for an IPv6 client subnet with prefix length below 96, every compiled rule of
the IPv6 family that matches on a source or destination network uses either the
loopback network of the anti-spoofing group or the full originally configured client
subnet, and never the clamped /96 effective subnet: the clamp affects only the derived
addressing, not the rule match predicates. -/
theorem v6_rules_use_original_subnet (cfg : Config) (sl : Bool)
    (h : cfg.clientSubnetV6.prefixLen < 96) :
    ∀ r ∈ compileRules cfg sl, r.family = AddressFamily.v6 →
      (r.pred.srcNet = none ∨ r.pred.srcNet = some ipv6LoopbackNet
          ∨ r.pred.srcNet = some cfg.clientSubnetV6)
        ∧ (r.pred.dstNet = none ∨ r.pred.dstNet = some cfg.clientSubnetV6)
        ∧ r.pred.srcNet ≠ some (effectiveClientSubnetV6 cfg.clientSubnetV6)
        ∧ r.pred.dstNet ≠ some (effectiveClientSubnetV6 cfg.clientSubnetV6) := by
  obtain ⟨cs4, cs6, aic, pci⟩ := cfg
  have h6 : cs6.prefixLen < 96 := h
  have heff : effectiveClientSubnetV6 cs6 = ⟨netFirst 128 cs6, 96⟩ := by
    simp [effectiveClientSubnetV6, h6]
  have hne : cs6 ≠ effectiveClientSubnetV6 cs6 := by
    rw [heff]
    intro hEq
    have h2 := congrArg IpNet.prefixLen hEq
    simp at h2
    omega
  have hneL : ipv6LoopbackNet ≠ effectiveClientSubnetV6 cs6 := by
    rw [heff]
    intro hEq
    have h2 := congrArg IpNet.prefixLen hEq
    simp [ipv6LoopbackNet] at h2
  cases aic <;> cases pci <;> cases sl <;>
    simp [compileRules, rh0Rules, antiSpoofingRules, serviceInputRules,
      interClientBlockRules, icmpRules, vpnForwardRules, internetToClientRules,
      defaultDenyRules, mangleRules, natPostroutingRules, interClientDropRule,
      internetToClientRule, defaultDenyRule, natExemptRule, natMasqueradeRule,
      icmp4Accept, icmp4AcceptLimited, icmp6Accept, icmp6AcceptLimited,
      List.forall_mem_append, List.forall_mem_cons, hne, hneL]

/-- Witness for C10 at the source default configuration (a /64, so the clamp is in
effect), instantiated at the IPv6 inter-client isolation rule of the output. -/
theorem v6_rules_use_original_subnet_witness :
    ((interClientDropRule .v6 defaultCfg.clientSubnetV6).pred.srcNet = none
        ∨ (interClientDropRule .v6 defaultCfg.clientSubnetV6).pred.srcNet =
            some ipv6LoopbackNet
        ∨ (interClientDropRule .v6 defaultCfg.clientSubnetV6).pred.srcNet =
            some defaultCfg.clientSubnetV6)
      ∧ ((interClientDropRule .v6 defaultCfg.clientSubnetV6).pred.dstNet = none
          ∨ (interClientDropRule .v6 defaultCfg.clientSubnetV6).pred.dstNet =
              some defaultCfg.clientSubnetV6)
      ∧ (interClientDropRule .v6 defaultCfg.clientSubnetV6).pred.srcNet ≠
          some (effectiveClientSubnetV6 defaultCfg.clientSubnetV6)
      ∧ (interClientDropRule .v6 defaultCfg.clientSubnetV6).pred.dstNet ≠
          some (effectiveClientSubnetV6 defaultCfg.clientSubnetV6) :=
  v6_rules_use_original_subnet defaultCfg true (by decide)
    (interClientDropRule .v6 defaultCfg.clientSubnetV6) (by decide) rfl

/-- C7 counterexample: at the source default configuration, a packet from the IPv4
client subnet that leaves via an IPSec-protected path (outbound policy applied)
receives the nat POSTROUTING verdict ACCEPT, the exemption from address translation,
and not MASQUERADE: the rule pair of lines 506-513 exempts IPSec-path traffic and
masquerades the rest, so the compiled output does not masquerade IPv4 client-subnet
traffic leaving via an IPSec-protected path. -/
theorem nat_masquerade_counterexample :
    inNetwork 32 defaultCfg.clientSubnetV4 pktIpsecOut.src = true
      ∧ pktIpsecOut.ipsecPolicyOut = true
      ∧ provision defaultCfg = Except.ok (compileRules defaultCfg true)
      ∧ chainVerdict (compileRules defaultCfg true) .nat .POSTROUTING pktIpsecOut =
          some RuleAction.ACCEPT
      ∧ chainVerdict (compileRules defaultCfg true) .nat .POSTROUTING pktIpsecOut ≠
          some RuleAction.MASQUERADE := by
  refine ⟨by decide, rfl, rfl, by decide, by decide⟩

set_option maxHeartbeats 2000000 in
/-- C7 amended: the nat-table POSTROUTING output always contains, for the IPv4 family,
the exempting ACCEPT for client-subnet traffic leaving under an outbound IPSec policy
followed by the MASQUERADE for the remaining client-subnet traffic; the analogous IPv6
pair is emitted if and only if the IPv6 classification is site local (for a
global-unicast subnet no IPv6 masquerade rule appears).  Consequently an IPv4 packet
from the client subnet is masqueraded exactly when it does not leave via an
IPSec-protected path. -/
theorem nat_masquerade_rules (cfg : Config) (sl : Bool) :
    tableChainRules .nat .POSTROUTING .v4 (compileRules cfg sl) =
        [natExemptRule .v4 cfg.clientSubnetV4, natMasqueradeRule .v4 cfg.clientSubnetV4]
      ∧ tableChainRules .nat .POSTROUTING .v6 (compileRules cfg sl) =
          (if sl then
              [natExemptRule .v6 cfg.clientSubnetV6, natMasqueradeRule .v6 cfg.clientSubnetV6]
            else [])
      ∧ (natMasqueradeRule .v6 cfg.clientSubnetV6 ∈ compileRules cfg sl ↔ sl = true)
      ∧ ∀ p : Packet, p.family = AddressFamily.v4 →
          inNetwork 32 cfg.clientSubnetV4 p.src = true →
            chainVerdict (compileRules cfg sl) .nat .POSTROUTING p =
              some (if p.ipsecPolicyOut then RuleAction.ACCEPT
                    else RuleAction.MASQUERADE) := by
  obtain ⟨cs4, cs6, aic, pci⟩ := cfg
  have h1 : tableChainRules .nat .POSTROUTING .v4
      (compileRules ⟨cs4, cs6, aic, pci⟩ sl) =
        [natExemptRule .v4 cs4, natMasqueradeRule .v4 cs4] := by
    cases aic <;> cases pci <;> cases sl <;> rfl
  have h2 : tableChainRules .nat .POSTROUTING .v6
      (compileRules ⟨cs4, cs6, aic, pci⟩ sl) =
        (if sl then [natExemptRule .v6 cs6, natMasqueradeRule .v6 cs6] else []) := by
    cases aic <;> cases pci <;> cases sl <;> rfl
  refine ⟨h1, h2, ?_, ?_⟩
  · have hmem : natMasqueradeRule .v6 cs6 ∈ compileRules ⟨cs4, cs6, aic, pci⟩ sl ↔
        natMasqueradeRule .v6 cs6 ∈
          tableChainRules .nat .POSTROUTING .v6 (compileRules ⟨cs4, cs6, aic, pci⟩ sl) :=
      ⟨fun hm => List.mem_filter.mpr ⟨hm, rfl⟩, fun hm => (List.mem_filter.mp hm).1⟩
    rw [hmem, h2]
    cases sl <;> simp
  · intro p hf hin
    obtain ⟨pf, ps, pd, pif, ppr, pdp, pin, pout, pct, pic, prt, psy, pms⟩ := p
    have hf' : pf = AddressFamily.v4 := hf
    subst hf'
    have hin' : inNetwork 32 cs4 ps = true := hin
    cases pout <;>
      simp [chainVerdict, h1, List.find?, matchesOn, polMatches, familyWidth,
        natExemptRule, natMasqueradeRule, hin']

/-- Witness for C7 amended: at the default configuration, the plain (no outbound
policy) client packet is masqueraded. -/
theorem nat_masquerade_rules_witness :
    chainVerdict (compileRules defaultCfg true) .nat .POSTROUTING pktPlain =
      some (if pktPlain.ipsecPolicyOut then RuleAction.ACCEPT
            else RuleAction.MASQUERADE) :=
  (nat_masquerade_rules defaultCfg true).2.2.2 pktPlain rfl (by decide)
